import Mathlib

/-!
Verification of `knock_integration_log_client/__init__.py`.

The module defines two classes:

* `IntegrationTransactionLog` — the per-sync-job transaction recorder
  (spec name: `TransactionRecorder`).  Its mutable attributes are embedded
  as the structure `RecorderState`; each method becomes a Lean function
  from the state (plus the method's arguments and, where the method makes
  remote calls, the outcome of each potential remote call, supplied as an
  oracle argument) to the new state paired with the list of observable
  events (remote calls issued, with their outcomes, and registered-handler
  invocations).

* `IntegrationLoggingService` — the stateless HTTP façade (spec name:
  `LoggingServiceClient`).  Its class-level `_service_host` is passed
  explicitly; the HTTP transport is abstracted as a response oracle
  argument; `raise_for_status` becomes a check of the status code.

Environmental inputs of the source (`arrow.now().isoformat()` timestamps,
`traceback.format_exc()` stack strings) are threaded as explicit string
parameters.  Logging (`_log` / `set_logger`) only forwards text to an
optional logger callback and is observationally inert, so it is not
modelled.
-/

namespace KnockLog

/-- A Python dict value appearing in `meta` payloads: either a string or an
integer (`error_count` is the one integer the module itself writes). -/
inductive MVal where
  | str (s : String)
  | num (n : Nat)
deriving DecidableEq, Repr

/-- A Python dict with string keys, embedded as an insertion-ordered
association list (first binding of a key is the live one; `metaSet`
overwrites in place like `d[k] = v`). -/
abbrev Meta := List (String × MVal)

/-- `d[k] = v`: overwrite the binding of `k` keeping its position, or append
a new binding at the end — Python dict assignment semantics. -/
def metaSet : Meta → String → MVal → Meta
  | [], k, v => [(k, v)]
  | (a, b) :: t, k, v => if a = k then (k, v) :: t else (a, b) :: metaSet t k v

/-- `d.get(k)`: first binding of `k`, if any. -/
def metaGet : Meta → String → Option MVal
  | [], _ => none
  | (a, b) :: t, k => if a = k then some b else metaGet t k

/-- `d.update(new)`: assign every binding of `new` into `d`, in order. -/
def metaMerge (m new : Meta) : Meta :=
  new.foldl (fun acc p => metaSet acc p.1 p.2) m

/-- A Python exception value as the module observes it: `e.args[0]` is its
message. -/
structure Exn where
  msg : String
deriving DecidableEq, Repr

/-- An exception record as built by
`IntegrationLoggingService.generate_transaction_exception_object`. -/
structure ExceptionRecord where
  message : String
  stack_trace : String
  created_time : String
deriving DecidableEq, Repr

/-- `generate_transaction_exception_object(exception)` — the stack trace
(`traceback.format_exc()`) and timestamp (`arrow.now().isoformat()`) are
environmental and passed explicitly. -/
def generate_transaction_exception_object (e : Exn) (stacktrace now : String) :
    ExceptionRecord :=
  { message := e.msg, stack_trace := stacktrace, created_time := now }

/-- `generate_transaction_tag(sync_type, vendor, credential_id)`:
the string `"{sync_type}-{vendor}-{credential_id}"`. -/
def generate_transaction_tag (sync_type vendor credential_id : String) : String :=
  sync_type ++ "-" ++ vendor ++ "-" ++ credential_id

/-- Outcome of the remote `create_transaction` call: the decoded response's
`integration_transaction_id` on success, or the raised exception. -/
inductive CreateResult where
  | ok (id : Nat)
  | err (e : Exn)
deriving DecidableEq, Repr

/-- Outcome of a remote call with no used return value
(`update_transaction`, `create_transaction_exceptions`). -/
inductive CallOutcome where
  | ok
  | err (e : Exn)
deriving DecidableEq, Repr

/-- The mutable per-instance state of `IntegrationTransactionLog`.
`handlerSet` records whether `set_http_error_handler` has registered a
callback (`_exception_handler_func is not None`); the callback itself is
opaque, so only its invocations are recorded as events. -/
structure RecorderState where
  tag : String
  start_time : String
  end_time : Option String
  response_url : Option String
  meta : Meta
  id : Option Nat
  exceptions : List ExceptionRecord
  exception_count : Nat
  is_error : Bool
  handlerSet : Bool
deriving DecidableEq, Repr

/-- Observable events of a recorder method: each remote call issued
(together with its outcome) and each invocation of the registered error
handler. -/
inductive REvent where
  | createCall (tag start_time : String) (meta : Meta) (result : CreateResult)
  | updateCall (id : Nat) (end_time : Option String) (meta : Meta)
      (response_url : Option String) (result : CallOutcome)
  | exceptionsCall (id : Nat) (exceptions : List ExceptionRecord)
      (result : CallOutcome)
  | handlerCall (e : Exn)
deriving DecidableEq, Repr

def REvent.isCreateCall : REvent → Bool
  | .createCall .. => true
  | _ => false

def REvent.isUpdateCall : REvent → Bool
  | .updateCall .. => true
  | _ => false

def REvent.isExceptionsCall : REvent → Bool
  | .exceptionsCall .. => true
  | _ => false

/-- A `create_transaction` call that raised. -/
def REvent.isFailedCreate : REvent → Bool
  | .createCall _ _ _ (CreateResult.err _) => true
  | _ => false

/-- The `meta` payload carried by an event, when it carries one. -/
def REvent.metaOf : REvent → Option Meta
  | .createCall _ _ m _ => some m
  | .updateCall _ _ m _ _ => some m
  | _ => none

/-- The arguments of the registered handler's invocations, in order. -/
def handlerCalls (evs : List REvent) : List Exn :=
  evs.filterMap fun ev =>
    match ev with
    | REvent.handlerCall e => some e
    | _ => none

/-- `__init__(sync_type, vendor, credential_id, meta=None)` — captures the
current time (environmental, passed as `now`), computes the tag, and sets
`_meta = meta or dict()`.  (This single-instance embedding gives the fresh
instance an empty `exceptions` list and zero `exception_count`, i.e. the
class-attribute defaults as seen when no other instance has mutated them;
the cross-instance sharing of the class-level `_exceptions` list is
modelled separately below.) -/
def initRecorder (sync_type vendor credential_id : String) (now : String)
    (meta : Option Meta) : RecorderState :=
  { tag := generate_transaction_tag sync_type vendor credential_id
    start_time := now
    end_time := none
    response_url := none
    meta := match meta with
            | some m => if m = [] then [] else m
            | none => []
    id := none
    exceptions := []
    exception_count := 0
    is_error := false
    handlerSet := false }

/-- `set_http_error_handler(f)` — registers the callback; no validation,
no remote call. -/
def set_http_error_handler (st : RecorderState) : RecorderState :=
  { st with handlerSet := true }

/-- `set_meta_field(key, value)` — `self._meta[key] = value`; no remote
call. -/
def set_meta_field (st : RecorderState) (key : String) (value : MVal) :
    RecorderState :=
  { st with meta := metaSet st.meta key value }

/-- `_on_exception(e)` — invokes the registered handler, if any, with the
failure.  Returns the handler-invocation events. -/
def onException (st : RecorderState) (e : Exn) : List REvent :=
  if st.handlerSet then [REvent.handlerCall e] else []

/-- `create()` — unconditionally calls
`IntegrationLoggingService.create_transaction(self._tag, self._start_time,
self._meta)`.  On failure sets `_is_error = True` and routes the exception
to `_on_exception`, raising nothing to the caller; on success stores the
returned `integration_transaction_id` in `_id`. -/
def create (st : RecorderState) (res : CreateResult) :
    RecorderState × List REvent :=
  match res with
  | CreateResult.err e =>
      ({ st with is_error := true },
       REvent.createCall st.tag st.start_time st.meta (CreateResult.err e)
         :: onException st e)
  | CreateResult.ok i =>
      ({ st with id := some i },
       [REvent.createCall st.tag st.start_time st.meta (CreateResult.ok i)])

/-- Python truthiness of an optional string argument (`None` and `""` are
falsy). -/
def truthyOptStr : Option String → Bool
  | none => false
  | some s => !(s == "")

/-- Python truthiness of an optional dict argument (`None` and `{}` are
falsy). -/
def truthyOptMeta : Option Meta → Bool
  | none => false
  | some m => !m.isEmpty

/-- The local-merge prefix of `update` (source lines 56–66): store a
supplied `end_time`, `dict.update` a supplied `meta`, always set
`self._meta['error_count'] = self._exception_count`, store a supplied
`response_url`.  No remote call. -/
def updateLocal (st0 : RecorderState) (end_time : Option String)
    (meta : Option Meta) (response_url : Option String) : RecorderState :=
  let st1 := match end_time with
             | some t => { st0 with end_time := some t }
             | none => st0
  let st2 := match meta with
             | some m => { st1 with meta := metaMerge st1.meta m }
             | none => st1
  let st3 := { st2 with
               meta := metaSet st2.meta "error_count" (MVal.num st2.exception_count) }
  match response_url with
  | some u => { st3 with response_url := some u }
  | none => st3

/-- `update(end_time=None, meta=None, response_url=None)` — merges the
supplied fields into local state, always sets
`self._meta['error_count'] = self._exception_count`, runs the deferred
create when `self._id is None and not self._is_error`, then — if at least
one argument was truthy (`end_time or meta or response_url`) and `_id` is
set — issues one `update_transaction` call with the full current
`_end_time`, `_meta`, `_response_url`; a failure of that call is routed to
`_on_exception` and absorbed.  `cres`/`ures` are the outcome oracles of
the two potential remote calls. -/
def update (st0 : RecorderState) (end_time : Option String)
    (meta : Option Meta) (response_url : Option String)
    (cres : CreateResult) (ures : CallOutcome) :
    RecorderState × List REvent :=
  let st4 := updateLocal st0 end_time meta response_url
  let cr := if st4.id.isNone && !st4.is_error then create st4 cres else (st4, [])
  let st5 := cr.1
  if truthyOptStr end_time || truthyOptMeta meta || truthyOptStr response_url then
    match st5.id with
    | some i =>
        match ures with
        | CallOutcome.ok =>
            (st5, cr.2 ++ [REvent.updateCall i st5.end_time st5.meta
                            st5.response_url CallOutcome.ok])
        | CallOutcome.err e =>
            (st5, cr.2 ++ REvent.updateCall i st5.end_time st5.meta
                            st5.response_url (CallOutcome.err e)
                          :: onException st5 e)
    | none => (st5, cr.2)
  else (st5, cr.2)

/-- `add_exception(e)` — builds the exception record (stack trace and
timestamp are environmental) and appends it locally, incrementing
`_exception_count`; no remote call. -/
def add_exception (st : RecorderState) (e : Exn) (stacktrace now : String) :
    RecorderState :=
  { st with
    exceptions := st.exceptions ++ [generate_transaction_exception_object e stacktrace now]
    exception_count := st.exception_count + 1 }

/-- `flush_exceptions()` — runs the deferred create when
`self._id is None and not self._is_error`; returns without action when the
local list is empty or `_id` is still unset; otherwise sends the whole list
in one `create_transaction_exceptions` call, clearing the list on success
and leaving it intact (routing the failure to `_on_exception`) on
failure. -/
def flush_exceptions (st : RecorderState) (cres : CreateResult)
    (fres : CallOutcome) : RecorderState × List REvent :=
  let cr := if st.id.isNone && !st.is_error then create st cres else (st, [])
  let st1 := cr.1
  match st1.id with
  | none => (st1, cr.2)
  | some i =>
      if st1.exceptions.isEmpty then (st1, cr.2)
      else
        match fres with
        | CallOutcome.ok =>
            ({ st1 with exceptions := [] },
             cr.2 ++ [REvent.exceptionsCall i st1.exceptions CallOutcome.ok])
        | CallOutcome.err e =>
            (st1, cr.2 ++ REvent.exceptionsCall i st1.exceptions (CallOutcome.err e)
                          :: onException st1 e)

/-- One recorder method invocation, with its arguments and the outcome
oracles of its potential remote calls. -/
inductive Op where
  | createOp (res : CreateResult)
  | updateOp (end_time : Option String) (meta : Option Meta)
      (response_url : Option String) (cres : CreateResult) (ures : CallOutcome)
  | addExceptionOp (e : Exn) (stacktrace now : String)
  | flushOp (cres : CreateResult) (fres : CallOutcome)
  | setMetaFieldOp (key : String) (value : MVal)
  | setHandlerOp
deriving DecidableEq, Repr

def Op.isCreateOp : Op → Bool
  | .createOp _ => true
  | _ => false

/-- Execute one method invocation. -/
def step (st : RecorderState) : Op → RecorderState × List REvent
  | Op.createOp res => create st res
  | Op.updateOp et m ru cres ures => update st et m ru cres ures
  | Op.addExceptionOp e stacktrace now => (add_exception st e stacktrace now, [])
  | Op.flushOp cres fres => flush_exceptions st cres fres
  | Op.setMetaFieldOp k v => (set_meta_field st k v, [])
  | Op.setHandlerOp => (set_http_error_handler st, [])

/-- Execute a sequence of method invocations, concatenating the events. -/
def run (st : RecorderState) : List Op → RecorderState × List REvent
  | [] => (st, [])
  | o :: ops =>
      let r := step st o
      let r2 := run r.1 ops
      (r2.1, r.2 ++ r2.2)

/-!
Cross-instance model of the `_exceptions` / `_exception_count` class
attributes.

In the source, `_exceptions = []` and `_exception_count = 0` are CLASS
attributes of `IntegrationTransactionLog`, and `__init__` does not assign
instance attributes for them.  Python attribute semantics therefore make

* `self._exceptions.append(...)` (in `add_exception`) mutate the shared
  class-level list object whenever the instance has no own binding — every
  other instance without an own binding observes the appended record;
* `self._exceptions = []` (in a successful `flush_exceptions`) bind a fresh
  list as an INSTANCE attribute of that one instance only, leaving the
  class-level list (and what other instances see) untouched;
* `self._exception_count += 1` read the effective value (instance binding
  if present, else the class-level `0`) and bind the increment as an
  instance attribute, so the count is effectively per-instance.

The embedding below captures exactly this: `PyWorld.classExceptions` is
the class-level list object, and a `PyRecorder` holds the optional own
(instance-level) bindings of the two attributes.
-/

/-- The class-level state of `IntegrationTransactionLog` relevant to
exception accumulation: the list object bound to the class attribute
`_exceptions`. -/
structure PyWorld where
  classExceptions : List ExceptionRecord
deriving DecidableEq, Repr

/-- One instance's own (instance-dict) bindings of `_exceptions` and
`_exception_count`; `none` means the lookup falls through to the class
attribute. -/
structure PyRecorder where
  exceptionsOwn : Option (List ExceptionRecord)
  countOwn : Option Nat
deriving DecidableEq, Repr

/-- `__init__` assigns `_start_time`, `_tag` and `_meta` as instance
attributes but NOT `_exceptions` or `_exception_count`: a fresh instance
has no own binding for either. -/
def pyRecorderInit : PyRecorder :=
  { exceptionsOwn := none, countOwn := none }

/-- Attribute lookup `self._exceptions`: the own binding if present,
otherwise the class-level list. -/
def pyExceptionsOf (w : PyWorld) (r : PyRecorder) : List ExceptionRecord :=
  match r.exceptionsOwn with
  | some l => l
  | none => w.classExceptions

/-- Attribute lookup `self._exception_count`: the own binding if present,
otherwise the class-level `0`. -/
def pyCountOf (r : PyRecorder) : Nat :=
  match r.countOwn with
  | some n => n
  | none => 0

/-- `add_exception(e)` under Python attribute semantics:
`self._exceptions.append(rec)` mutates whichever list object the lookup
resolves to (the shared class-level list when the instance has no own
binding), and `self._exception_count += 1` binds the incremented count as
an instance attribute. -/
def pyAddException (w : PyWorld) (r : PyRecorder) (e : Exn)
    (stacktrace now : String) : PyWorld × PyRecorder :=
  let record := generate_transaction_exception_object e stacktrace now
  match r.exceptionsOwn with
  | none =>
      ({ classExceptions := w.classExceptions ++ [record] },
       { r with countOwn := some (pyCountOf r + 1) })
  | some l =>
      (w, { exceptionsOwn := some (l ++ [record]), countOwn := some (pyCountOf r + 1) })

/-- The local effect of a successful `flush_exceptions()`:
`self._exceptions = []` binds a FRESH empty list as an instance attribute
of this one instance; the class-level list object is not touched. -/
def pyFlushSuccessLocalEffect (w : PyWorld) (r : PyRecorder) :
    PyWorld × PyRecorder :=
  (w, { r with exceptionsOwn := some [] })

/-!
The `IntegrationLoggingService` HTTP façade.

`_service_host` is the class-level configuration, embedded as an
`Option String` argument (`none` before `initialize` has been called,
`some h` after `initialize(h)`).  The guard `if not cls._service_host`
treats both `None` and the empty string as unconfigured.  The HTTP
transport is abstracted as a response oracle (`HttpResp`): each operation
takes the response its single HTTP request would receive, and
`raise_for_status` turns a status of 400 or above into a failure.  Request
payload assembly (plain JSON dictionaries of the arguments) has no logic
beyond field selection and is not reified.
-/

/-- Failures an `IntegrationLoggingService` operation can raise: the
not-initialized guard, or an HTTP error status from `raise_for_status`. -/
inductive ClientError where
  | notInitialized
  | httpFailure (status : Nat)
deriving DecidableEq, Repr

/-- An HTTP response: status code and decoded body. -/
structure HttpResp (β : Type) where
  status : Nat
  body : β
deriving DecidableEq, Repr

/-- `response.raise_for_status()`: statuses of 400 and above
(client/server errors) raise; others pass the response through. -/
def raiseForStatus {β : Type} (r : HttpResp β) : Except ClientError (HttpResp β) :=
  if 400 ≤ r.status then Except.error (ClientError.httpFailure r.status)
  else Except.ok r

/-- `_validate_is_initialized()`: raises when `not cls._service_host`,
i.e. when the host is unset or the empty string. -/
def validate_is_initialized (service_host : Option String) :
    Except ClientError Unit :=
  if (match service_host with | none => "" | some h => h) = "" then
    Except.error ClientError.notInitialized
  else Except.ok ()

/-- `create_transaction(tag, start_time, meta=None)` — validates
initialization, posts `{start_time, tag, meta}` to `/transaction`, raises
for a non-success status, and returns the decoded body (of which the
caller uses `integration_transaction_id`, so the body is embedded as that
identifier). -/
def create_transaction (service_host : Option String)
    (tag start_time : String) (meta : Option Meta) (resp : HttpResp Nat) :
    Except ClientError Nat :=
  match validate_is_initialized service_host with
  | Except.error err => Except.error err
  | Except.ok _ =>
      match raiseForStatus resp with
      | Except.error err => Except.error err
      | Except.ok r => Except.ok r.body

/-- `update_transaction(id, end_time=None, meta=None, response_url=None)` —
validates initialization, puts the partial payload of the supplied fields
to `/transaction/{id}`, raises for a non-success status; no return
value. -/
def update_transaction (service_host : Option String)
    (integration_transaction_id : Nat) (end_time : Option String)
    (meta : Option Meta) (response_url : Option String)
    (resp : HttpResp Unit) : Except ClientError Unit :=
  match validate_is_initialized service_host with
  | Except.error err => Except.error err
  | Except.ok _ =>
      match raiseForStatus resp with
      | Except.error err => Except.error err
      | Except.ok _ => Except.ok ()

/-- `get_transaction(id)` — validates initialization, gets
`/transaction/{id}`, raises for a non-success status, returns the decoded
resource. -/
def get_transaction (service_host : Option String)
    (integration_transaction_id : Nat) (resp : HttpResp Meta) :
    Except ClientError Meta :=
  match validate_is_initialized service_host with
  | Except.error err => Except.error err
  | Except.ok _ =>
      match raiseForStatus resp with
      | Except.error err => Except.error err
      | Except.ok r => Except.ok r.body

/-- `search_transactions()` — validates initialization, posts the fixed
query `{distinct: "tag", order_by: "tag,start_time"}` to
`/transaction/search`, raises for a non-success status, returns the
decoded list. -/
def search_transactions (service_host : Option String)
    (resp : HttpResp (List Meta)) : Except ClientError (List Meta) :=
  match validate_is_initialized service_host with
  | Except.error err => Except.error err
  | Except.ok _ =>
      match raiseForStatus resp with
      | Except.error err => Except.error err
      | Except.ok r => Except.ok r.body

/-- `create_transaction_exceptions(id, exceptions)` — validates
initialization, posts `{exceptions}` to `/transaction/{id}/exception`,
raises for a non-success status; no return value. -/
def create_transaction_exceptions (service_host : Option String)
    (integration_transaction_id : Nat) (excs : List ExceptionRecord)
    (resp : HttpResp Unit) : Except ClientError Unit :=
  match validate_is_initialized service_host with
  | Except.error err => Except.error err
  | Except.ok _ =>
      match raiseForStatus resp with
      | Except.error err => Except.error err
      | Except.ok _ => Except.ok ()

/-! ### Helper lemmas -/

theorem metaGet_metaSet_same (m : Meta) (k : String) (v : MVal) :
    metaGet (metaSet m k v) k = some v := by
  induction m with
  | nil => simp [metaSet, metaGet]
  | cons p t ih =>
      obtain ⟨a, b⟩ := p
      by_cases h : a = k
      · simp [metaSet, metaGet, h]
      · simp [metaSet, metaGet, h, ih]

theorem create_meta (st : RecorderState) (res : CreateResult) :
    (create st res).1.meta = st.meta := by
  cases res <;> rfl

theorem create_end_time (st : RecorderState) (res : CreateResult) :
    (create st res).1.end_time = st.end_time := by
  cases res <;> rfl

theorem create_response_url (st : RecorderState) (res : CreateResult) :
    (create st res).1.response_url = st.response_url := by
  cases res <;> rfl

theorem create_exceptions (st : RecorderState) (res : CreateResult) :
    (create st res).1.exceptions = st.exceptions := by
  cases res <;> rfl

theorem create_exception_count (st : RecorderState) (res : CreateResult) :
    (create st res).1.exception_count = st.exception_count := by
  cases res <;> rfl

/-- Every event emitted by `create` is the create call itself or a handler
invocation. -/
theorem create_events_shape (st : RecorderState) (res : CreateResult) :
    ∀ ev ∈ (create st res).2,
      ev = REvent.createCall st.tag st.start_time st.meta res ∨
      ∃ e, ev = REvent.handlerCall e := by
  cases res with
  | ok i => intro ev hev; simp [create] at hev; simp [hev]
  | err e =>
      intro ev hev
      simp [create, onException] at hev
      rcases hev with h | h
      · simp [h]
      · rcases h with ⟨-, h2⟩
        exact Or.inr ⟨e, h2⟩

theorem onException_events_shape (st : RecorderState) (e : Exn) :
    ∀ ev ∈ onException st e, ev = REvent.handlerCall e := by
  intro ev hev
  by_cases h : st.handlerSet <;> simp [onException, h] at hev
  simp [hev]

theorem updateLocal_exception_count (st : RecorderState) (et : Option String)
    (m : Option Meta) (ru : Option String) :
    (updateLocal st et m ru).exception_count = st.exception_count := by
  cases et <;> cases m <;> cases ru <;> rfl

theorem updateLocal_id (st : RecorderState) (et : Option String)
    (m : Option Meta) (ru : Option String) :
    (updateLocal st et m ru).id = st.id := by
  cases et <;> cases m <;> cases ru <;> rfl

theorem updateLocal_is_error (st : RecorderState) (et : Option String)
    (m : Option Meta) (ru : Option String) :
    (updateLocal st et m ru).is_error = st.is_error := by
  cases et <;> cases m <;> cases ru <;> rfl

theorem updateLocal_exceptions (st : RecorderState) (et : Option String)
    (m : Option Meta) (ru : Option String) :
    (updateLocal st et m ru).exceptions = st.exceptions := by
  cases et <;> cases m <;> cases ru <;> rfl

/-- The local merge always ends by overwriting `error_count` with the
(unchanged) exception count. -/
theorem updateLocal_error_count (st : RecorderState) (et : Option String)
    (m : Option Meta) (ru : Option String) :
    metaGet (updateLocal st et m ru).meta "error_count" =
      some (MVal.num st.exception_count) := by
  cases et <;> cases m <;> cases ru <;>
    simp [updateLocal, metaGet_metaSet_same]

/-! ### Concrete states used by counterexamples and witnesses -/

/-- A freshly constructed recorder
(`IntegrationTransactionLog("daily_sync", "acme", "cred-1")`). -/
def freshRecorder : RecorderState :=
  initRecorder "daily_sync" "acme" "cred-1" "t0" none

/-- The fresh recorder after one successful `create()` that returned
`integration_transaction_id = 42`. -/
def createdRecorder : RecorderState :=
  (create freshRecorder (CreateResult.ok 42)).1

/-! ### Claim theorems -/

/-- C1 (counterexample): the claim "calling create() again on a recorder
that already holds a remoteId issues no second create request" is false:
the `create` method itself has no guard — on `createdRecorder`, whose
`remoteId` is `42` from a prior successful create, calling `create()`
again issues a second create request (and even overwrites the stored id
with the new response's id, here `7`). -/
theorem create_unguarded_reissues_counterexample :
    createdRecorder.id = some 42 ∧
    (create createdRecorder (CreateResult.ok 7)).2.filter REvent.isCreateCall ≠ [] ∧
    (create createdRecorder (CreateResult.ok 7)).1.id = some 7 := by
  decide

/-- C1 (amended): the guard "no transaction exists remotely yet" lives in
`update` and `flush_exceptions`, not in `create` itself: for every
recorder state that already holds a `remoteId`, an `update()` or
`flushExceptions()` call issues no create request, whatever its arguments
and remote outcomes — so the deferred-creation paths never issue a second
create. -/
theorem no_second_create_via_guarded_paths (st : RecorderState) (i : Nat)
    (h : st.id = some i) :
    (∀ et m ru cres ures,
        (update st et m ru cres ures).2.filter REvent.isCreateCall = []) ∧
    (∀ cres fres,
        (flush_exceptions st cres fres).2.filter REvent.isCreateCall = []) := by
  constructor
  · intro et m ru cres ures
    rcases hg : (truthyOptStr et || truthyOptMeta m || truthyOptStr ru) with _ | _ <;>
      cases ures <;>
        by_cases hh : (updateLocal st et m ru).handlerSet <;>
          simp [update, updateLocal_id, h, hg, onException, hh, REvent.isCreateCall]
  · intro cres fres
    rcases hne : st.exceptions.isEmpty with _ | _ <;>
      cases fres <;>
        by_cases hh : st.handlerSet <;>
          simp [flush_exceptions, h, hne, onException, hh, REvent.isCreateCall]

/-- C1 (witness): the amended guarantee at a concrete recorder holding
`remoteId = 42`. -/
theorem no_second_create_via_guarded_paths_witness :
    (update createdRecorder none none none (CreateResult.ok 0)
        CallOutcome.ok).2.filter REvent.isCreateCall = [] ∧
    (flush_exceptions createdRecorder (CreateResult.ok 0)
        CallOutcome.ok).2.filter REvent.isCreateCall = [] :=
  ⟨(no_second_create_via_guarded_paths createdRecorder 42 (by decide)).1
      none none none (CreateResult.ok 0) CallOutcome.ok,
   (no_second_create_via_guarded_paths createdRecorder 42 (by decide)).2
      (CreateResult.ok 0) CallOutcome.ok⟩

/-- C2 (counterexample): the claim "flushExceptions() with an empty
exception list performs no remote call of any kind" is false: on a fresh
recorder (empty exception list, no remote id, no prior failure),
`flush_exceptions` first runs the deferred `create()`, issuing a remote
create request. -/
theorem flush_empty_issues_create_counterexample :
    freshRecorder.exceptions = [] ∧
    (flush_exceptions freshRecorder (CreateResult.ok 42) CallOutcome.ok).2 =
      [REvent.createCall "daily_sync-acme-cred-1" "t0" [] (CreateResult.ok 42)] := by
  decide

/-- C2 (amended): `flushExceptions()` with an empty local exception list
never issues an append-exceptions request — but it may first issue a
create request (when no remote id exists and no create has failed).  When
a remote id already exists it performs no remote call at all. -/
theorem flush_empty_list_no_exceptions_call (st : RecorderState)
    (cres : CreateResult) (fres : CallOutcome) (h : st.exceptions = []) :
    (flush_exceptions st cres fres).2.filter REvent.isExceptionsCall = [] ∧
    (∀ i, st.id = some i → (flush_exceptions st cres fres).2 = []) := by
  constructor
  · rcases hid : st.id with _ | i <;>
      rcases herr : st.is_error with _ | _ <;>
        cases cres <;> cases fres <;>
          by_cases hh : st.handlerSet <;>
            simp [flush_exceptions, hid, herr, h, create, onException, hh,
              REvent.isExceptionsCall]
  · intro i hi
    simp [flush_exceptions, hi, h]

/-- C2 (witness): the amended guarantee at a concrete recorder that holds
`remoteId = 42` and has an empty exception list. -/
theorem flush_empty_list_no_exceptions_call_witness :
    (flush_exceptions createdRecorder (CreateResult.ok 0)
        CallOutcome.ok).2.filter REvent.isExceptionsCall = [] ∧
    (flush_exceptions createdRecorder (CreateResult.ok 0)
        CallOutcome.ok).2 = [] :=
  ⟨(flush_empty_list_no_exceptions_call createdRecorder (CreateResult.ok 0)
      CallOutcome.ok (by decide)).1,
   (flush_empty_list_no_exceptions_call createdRecorder (CreateResult.ok 0)
      CallOutcome.ok (by decide)).2 42 (by decide)⟩

/-- C3 (code bug, demonstrated at the failing input): `_exceptions` is a
class-level list that `__init__` never rebinds, so after one
`add_exception` on a first instance, a freshly constructed second instance
observes the shared appended record — its effective exception list is NOT
empty, while its effective `_exception_count` is still `0`; and the record
stays visible to the fresh instance even after the first instance's
successful flush, because that flush rebinds only the first instance's own
attribute. -/
theorem fresh_instance_observes_shared_class_exceptions :
    (pyExceptionsOf (pyAddException ⟨[]⟩ pyRecorderInit ⟨"boom"⟩ "tb" "t1").1
        pyRecorderInit =
      [generate_transaction_exception_object ⟨"boom"⟩ "tb" "t1"]) ∧
    (pyExceptionsOf (pyAddException ⟨[]⟩ pyRecorderInit ⟨"boom"⟩ "tb" "t1").1
        pyRecorderInit ≠ []) ∧
    (pyCountOf pyRecorderInit = 0) ∧
    (pyExceptionsOf
        (pyFlushSuccessLocalEffect
          (pyAddException ⟨[]⟩ pyRecorderInit ⟨"boom"⟩ "tb" "t1").1
          (pyAddException ⟨[]⟩ pyRecorderInit ⟨"boom"⟩ "tb" "t1").2).1
        pyRecorderInit ≠ []) := by
  decide

/-- C7 (counterexample): the claim "if at least one of endTime, meta,
responseUrl was supplied as a non-None argument and a remoteId exists,
exactly one remote update call is issued" is false: the source guards the
remote call with Python truthiness (`end_time or meta or response_url`),
so `update(meta={})` — a supplied, non-None but empty dict — on a recorder
with `remoteId = 42` issues no remote call at all. -/
theorem update_nonNone_falsy_meta_counterexample :
    createdRecorder.id = some 42 ∧
    (some ([] : Meta)) ≠ (none : Option Meta) ∧
    (update createdRecorder none (some []) none (CreateResult.ok 0)
        CallOutcome.ok).2 = [] := by
  decide

/-- C7 (amended): the remote update calls issued by `update()` are exactly
characterized by truthiness, not non-Noneness: when at least one of
`end_time`/`meta`/`response_url` is truthy (non-None and non-empty) and a
remote id exists after the deferred-create step, exactly one remote update
call is issued, carrying the full current `end_time`, `meta`,
`response_url`; otherwise none is issued. -/
theorem update_remote_call_characterization (st0 : RecorderState)
    (et : Option String) (m : Option Meta) (ru : Option String)
    (cres : CreateResult) (ures : CallOutcome) :
    (update st0 et m ru cres ures).2.filter REvent.isUpdateCall =
      (if truthyOptStr et || truthyOptMeta m || truthyOptStr ru then
        match (update st0 et m ru cres ures).1.id with
        | some i =>
            [REvent.updateCall i (update st0 et m ru cres ures).1.end_time
              (update st0 et m ru cres ures).1.meta
              (update st0 et m ru cres ures).1.response_url ures]
        | none => []
      else []) := by
  rcases hg : (truthyOptStr et || truthyOptMeta m || truthyOptStr ru) with _ | _ <;>
    rcases hid : (updateLocal st0 et m ru).id with _ | i <;>
      rcases herr : (updateLocal st0 et m ru).is_error with _ | _ <;>
        cases cres <;> cases ures <;>
          by_cases hh : (updateLocal st0 et m ru).handlerSet <;>
            simp [update, hid, herr, hg, create, onException, hh,
              REvent.isUpdateCall]

/-- A single method invocation on a recorder whose error flag is set
neither issues a create request nor clears the flag, for every method
other than a direct `create()`. -/
theorem step_preserves_error_no_create (st : RecorderState) (o : Op)
    (h1 : st.is_error = true) (h2 : o.isCreateOp = false) :
    (step st o).1.is_error = true ∧
    ∀ ev ∈ (step st o).2, ev.isCreateCall = false := by
  cases o with
  | createOp res => simp [Op.isCreateOp] at h2
  | updateOp et m ru cres ures =>
      rcases hg : (truthyOptStr et || truthyOptMeta m || truthyOptStr ru) with _ | _ <;>
        rcases hid : (updateLocal st et m ru).id with _ | i <;>
          cases ures <;>
            by_cases hh : (updateLocal st et m ru).handlerSet <;>
              simp [step, update, updateLocal_is_error, h1, hg, hid,
                onException, hh, REvent.isCreateCall]
  | addExceptionOp e stacktrace now => simp [step, add_exception, h1]
  | flushOp cres fres =>
      rcases hid : st.id with _ | i <;>
        rcases hne : st.exceptions.isEmpty with _ | _ <;>
          cases fres <;>
            by_cases hh : st.handlerSet <;>
              simp [step, flush_exceptions, h1, hid, hne, onException, hh,
                REvent.isCreateCall]
  | setMetaFieldOp k v => simp [step, set_meta_field, h1]
  | setHandlerOp => simp [step, set_http_error_handler, h1]

/-- C4: the failure flag is terminal for creation — starting from any
recorder state whose `isError` flag is set, running any sequence of
`update`, `flushExceptions`, `addException`, `setMetaField` and
`setHttpErrorHandler` invocations (any arguments, any remote outcomes)
never issues a create request, and the flag stays set throughout. -/
theorem error_flag_blocks_future_creation (st : RecorderState)
    (ops : List Op) (h1 : st.is_error = true)
    (h2 : ∀ o ∈ ops, o.isCreateOp = false) :
    (run st ops).1.is_error = true ∧
    ∀ ev ∈ (run st ops).2, ev.isCreateCall = false := by
  induction ops generalizing st with
  | nil => simpa [run] using h1
  | cons o ops ih =>
      have hst := step_preserves_error_no_create st o h1 (h2 o (by simp))
      have ih2 := ih (step st o).1 hst.1 (fun o' ho' => h2 o' (by simp [ho']))
      constructor
      · simpa [run] using ih2.1
      · intro ev hev
        simp only [run, List.mem_append] at hev
        rcases hev with hl | hr
        · exact hst.2 ev hl
        · exact ih2.2 ev hr

/-- C4 (witness): after one failed create, a concrete sequence of one
update, one addException and two flushes issues no create request and
leaves the error flag set. -/
theorem error_flag_blocks_future_creation_witness :
    (run (create freshRecorder (CreateResult.err ⟨"http500"⟩)).1
      [Op.updateOp (some "t9") none none (CreateResult.ok 5) CallOutcome.ok,
       Op.addExceptionOp ⟨"boom"⟩ "tb" "t1",
       Op.flushOp (CreateResult.ok 6) CallOutcome.ok,
       Op.flushOp (CreateResult.ok 7) CallOutcome.ok]).1.is_error = true ∧
    ∀ ev ∈ (run (create freshRecorder (CreateResult.err ⟨"http500"⟩)).1
      [Op.updateOp (some "t9") none none (CreateResult.ok 5) CallOutcome.ok,
       Op.addExceptionOp ⟨"boom"⟩ "tb" "t1",
       Op.flushOp (CreateResult.ok 6) CallOutcome.ok,
       Op.flushOp (CreateResult.ok 7) CallOutcome.ok]).2,
      ev.isCreateCall = false :=
  error_flag_blocks_future_creation
    (create freshRecorder (CreateResult.err ⟨"http500"⟩)).1
    [Op.updateOp (some "t9") none none (CreateResult.ok 5) CallOutcome.ok,
     Op.addExceptionOp ⟨"boom"⟩ "tb" "t1",
     Op.flushOp (CreateResult.ok 6) CallOutcome.ok,
     Op.flushOp (CreateResult.ok 7) CallOutcome.ok]
    (by decide) (by decide)

/-- C5: with a remote id present and a non-empty local exception list, a
successful `flushExceptions()` leaves the local exception list empty,
while a failed one (the remote append-exceptions call raises) leaves it
exactly as it was — atomic on error, retryable. -/
theorem flush_clears_only_on_success (st : RecorderState) (i : Nat)
    (cres : CreateResult) (h1 : st.id = some i) (h2 : st.exceptions ≠ []) :
    (flush_exceptions st cres CallOutcome.ok).1.exceptions = [] ∧
    ∀ e, (flush_exceptions st cres (CallOutcome.err e)).1.exceptions =
      st.exceptions := by
  have hne : st.exceptions.isEmpty = false := by
    cases hx : st.exceptions with
    | nil => exact absurd hx h2
    | cons a t => simp [List.isEmpty]
  constructor
  · simp [flush_exceptions, h1, hne]
  · intro e
    simp [flush_exceptions, h1, hne, onException]

/-- C5 (witness): a concrete recorder with `remoteId = 42` and one
accumulated exception — the successful flush empties the list, the failed
flush leaves it untouched. -/
theorem flush_clears_only_on_success_witness :
    (flush_exceptions (add_exception createdRecorder ⟨"boom"⟩ "tb" "t1")
        (CreateResult.ok 0) CallOutcome.ok).1.exceptions = [] ∧
    ∀ e, (flush_exceptions (add_exception createdRecorder ⟨"boom"⟩ "tb" "t1")
        (CreateResult.ok 0) (CallOutcome.err e)).1.exceptions =
      (add_exception createdRecorder ⟨"boom"⟩ "tb" "t1").exceptions :=
  flush_clears_only_on_success
    (add_exception createdRecorder ⟨"boom"⟩ "tb" "t1") 42
    (CreateResult.ok 0) (by decide) (by decide)

/-- C6: every `update()` call recomputes `meta.error_count`: after the
call, the local meta maps `error_count` to the recorder's current local
exception count, and every meta payload transmitted by that call (by the
deferred create and by the remote update) does too. -/
theorem update_recomputes_error_count (st0 : RecorderState)
    (et : Option String) (m : Option Meta) (ru : Option String)
    (cres : CreateResult) (ures : CallOutcome) :
    metaGet (update st0 et m ru cres ures).1.meta "error_count" =
      some (MVal.num (update st0 et m ru cres ures).1.exception_count) ∧
    ∀ ev ∈ (update st0 et m ru cres ures).2, ∀ mp ∈ ev.metaOf,
      metaGet mp "error_count" =
        some (MVal.num (update st0 et m ru cres ures).1.exception_count) := by
  rcases hg : (truthyOptStr et || truthyOptMeta m || truthyOptStr ru) with _ | _ <;>
    rcases hid : (updateLocal st0 et m ru).id with _ | i <;>
      rcases herr : (updateLocal st0 et m ru).is_error with _ | _ <;>
        cases cres <;> cases ures <;>
          by_cases hh : (updateLocal st0 et m ru).handlerSet <;>
            simp [update, hid, herr, hg, create, onException, hh,
              REvent.metaOf, updateLocal_error_count,
              updateLocal_exception_count]

/-- C8: a failed `create()` on a recorder with no remote id is absorbed
(the embedding is a total function — nothing propagates to the caller):
it sets `isError`, leaves `remoteId` unset, and invokes the registered
error handler exactly once with the failure — or produces no handler
invocation when none is registered. -/
theorem create_failure_absorbed_and_reported (st : RecorderState) (e : Exn)
    (h : st.id = none) :
    (create st (CreateResult.err e)).1.is_error = true ∧
    (create st (CreateResult.err e)).1.id = none ∧
    handlerCalls (create st (CreateResult.err e)).2 =
      (if st.handlerSet then [e] else []) := by
  refine ⟨rfl, h, ?_⟩
  by_cases hh : st.handlerSet <;> simp [create, onException, handlerCalls, hh]

/-- C8 (witness): a concrete failed create on a fresh recorder with a
registered handler — error flag set, id still unset, handler called once
with the failure. -/
theorem create_failure_absorbed_and_reported_witness :
    (create (set_http_error_handler freshRecorder)
        (CreateResult.err ⟨"http500"⟩)).1.is_error = true ∧
    (create (set_http_error_handler freshRecorder)
        (CreateResult.err ⟨"http500"⟩)).1.id = none ∧
    handlerCalls (create (set_http_error_handler freshRecorder)
        (CreateResult.err ⟨"http500"⟩)).2 =
      (if (set_http_error_handler freshRecorder).handlerSet
        then [(⟨"http500"⟩ : Exn)] else []) :=
  create_failure_absorbed_and_reported
    (set_http_error_handler freshRecorder) ⟨"http500"⟩ (by decide)

/-- A single method invocation sets the error flag exactly when it
executed a create call that failed. -/
theorem step_is_error_eq (st : RecorderState) (o : Op) :
    (step st o).1.is_error =
      (st.is_error || (step st o).2.any REvent.isFailedCreate) := by
  cases o with
  | createOp res =>
      cases res <;>
        by_cases hh : st.handlerSet <;>
          simp [step, create, onException, hh, REvent.isFailedCreate]
  | updateOp et m ru cres ures =>
      rcases hg : (truthyOptStr et || truthyOptMeta m || truthyOptStr ru) with _ | _ <;>
        rcases hid : (updateLocal st et m ru).id with _ | i <;>
          rcases herr : (updateLocal st et m ru).is_error with _ | _ <;>
            cases cres <;> cases ures <;>
              by_cases hh : (updateLocal st et m ru).handlerSet <;>
                simp [step, update, hid, herr, hg, create, onException, hh,
                  REvent.isFailedCreate, ← updateLocal_is_error st et m ru]
  | addExceptionOp e stacktrace now => simp [step, add_exception]
  | flushOp cres fres =>
      rcases hid : st.id with _ | i <;>
        rcases herr : st.is_error with _ | _ <;>
          cases cres <;> cases fres <;>
            by_cases hh : st.handlerSet <;>
              simp [step, flush_exceptions, hid, herr, create, onException,
                hh, REvent.isFailedCreate] <;>
              split <;>
              simp [REvent.isFailedCreate, herr]
  | setMetaFieldOp k v => simp [step, set_meta_field]
  | setHandlerOp => simp [step, set_http_error_handler]

/-- Over a whole invocation sequence, the error flag is the initial flag
or-ed with "some executed create call failed". -/
theorem run_is_error_eq (ops : List Op) :
    ∀ st : RecorderState,
      (run st ops).1.is_error =
        (st.is_error || (run st ops).2.any REvent.isFailedCreate) := by
  induction ops with
  | nil => intro st; simp [run]
  | cons o ops ih =>
      intro st
      simp only [run, List.any_append]
      rw [ih, step_is_error_eq, Bool.or_assoc]

/-- C9: on every recorder reachable from construction by any sequence of
method invocations, `isError` is set exactly when some executed
`create()` call failed along the way — failures of remote update calls
and of append-exceptions calls never touch the flag. -/
theorem is_error_iff_some_create_failed (sync_type vendor credential_id
    now : String) (meta0 : Option Meta) (ops : List Op) :
    (run (initRecorder sync_type vendor credential_id now meta0) ops).1.is_error =
      (run (initRecorder sync_type vendor credential_id now meta0) ops).2.any
        REvent.isFailedCreate := by
  rw [run_is_error_eq]
  simp [initRecorder]

/-- C10: every `IntegrationLoggingService` operation raises the
not-initialized error when called before a service host is configured
(`_service_host` unset — the guard also treats an empty host string as
unconfigured), and never raises it once a non-empty host is configured,
whatever the HTTP transport then answers. -/
theorem client_operations_require_service_host
    (tag start_time : String) (meta : Option Meta) (tid : Nat)
    (et : Option String) (mu : Option Meta) (ru : Option String)
    (excs : List ExceptionRecord) (r1 : HttpResp Nat) (r2 : HttpResp Unit)
    (r3 : HttpResp Meta) (r4 : HttpResp (List Meta)) (r5 : HttpResp Unit)
    (h : String) (hh : h ≠ "") :
    (create_transaction none tag start_time meta r1 =
      Except.error ClientError.notInitialized) ∧
    (update_transaction none tid et mu ru r2 =
      Except.error ClientError.notInitialized) ∧
    (get_transaction none tid r3 =
      Except.error ClientError.notInitialized) ∧
    (search_transactions none r4 =
      Except.error ClientError.notInitialized) ∧
    (create_transaction_exceptions none tid excs r5 =
      Except.error ClientError.notInitialized) ∧
    (create_transaction (some h) tag start_time meta r1 ≠
      Except.error ClientError.notInitialized) ∧
    (update_transaction (some h) tid et mu ru r2 ≠
      Except.error ClientError.notInitialized) ∧
    (get_transaction (some h) tid r3 ≠
      Except.error ClientError.notInitialized) ∧
    (search_transactions (some h) r4 ≠
      Except.error ClientError.notInitialized) ∧
    (create_transaction_exceptions (some h) tid excs r5 ≠
      Except.error ClientError.notInitialized) := by
  refine ⟨rfl, rfl, rfl, rfl, rfl, ?_, ?_, ?_, ?_, ?_⟩
  · by_cases hs : 400 ≤ r1.status <;>
      simp [create_transaction, validate_is_initialized, hh, raiseForStatus, hs]
  · by_cases hs : 400 ≤ r2.status <;>
      simp [update_transaction, validate_is_initialized, hh, raiseForStatus, hs]
  · by_cases hs : 400 ≤ r3.status <;>
      simp [get_transaction, validate_is_initialized, hh, raiseForStatus, hs]
  · by_cases hs : 400 ≤ r4.status <;>
      simp [search_transactions, validate_is_initialized, hh, raiseForStatus, hs]
  · by_cases hs : 400 ≤ r5.status <;>
      simp [create_transaction_exceptions, validate_is_initialized, hh,
        raiseForStatus, hs]

/-- C10 (witness): concrete calls — unconfigured client raises the
not-initialized error on each operation; with host `"http://logsvc"` none
of them raises it, even when the transport answers HTTP 500. -/
theorem client_operations_require_service_host_witness :
    (create_transaction none "t" "s" none ⟨500, 0⟩ =
      Except.error ClientError.notInitialized) ∧
    (update_transaction none 1 none none none ⟨500, ()⟩ =
      Except.error ClientError.notInitialized) ∧
    (get_transaction none 1 ⟨500, []⟩ =
      Except.error ClientError.notInitialized) ∧
    (search_transactions none ⟨500, []⟩ =
      Except.error ClientError.notInitialized) ∧
    (create_transaction_exceptions none 1 [] ⟨500, ()⟩ =
      Except.error ClientError.notInitialized) ∧
    (create_transaction (some "http://logsvc") "t" "s" none ⟨500, 0⟩ ≠
      Except.error ClientError.notInitialized) ∧
    (update_transaction (some "http://logsvc") 1 none none none ⟨500, ()⟩ ≠
      Except.error ClientError.notInitialized) ∧
    (get_transaction (some "http://logsvc") 1 ⟨500, []⟩ ≠
      Except.error ClientError.notInitialized) ∧
    (search_transactions (some "http://logsvc") ⟨500, []⟩ ≠
      Except.error ClientError.notInitialized) ∧
    (create_transaction_exceptions (some "http://logsvc") 1 [] ⟨500, ()⟩ ≠
      Except.error ClientError.notInitialized) :=
  client_operations_require_service_host "t" "s" none 1 none none none []
    ⟨500, 0⟩ ⟨500, ()⟩ ⟨500, []⟩ ⟨500, []⟩ ⟨500, ()⟩ "http://logsvc"
    (by decide)

end KnockLog
